import Mathlib

/-!
Verification development for the deploy-rs sources.

Shallow embedding of the parts of deploy-rs that the specification
claims speak about: sentinel (canary) path construction, the settings
merge, the deployment coordinator's revocation walk, the resolver's
profile ordering, the activation agent (activate / wait), and the
target-descriptor parser.  Rust strings are modelled at the char level
(faithful for ASCII content, which is all that store paths, flags and
the counterexamples use); fallible or panicking code is modelled with
Option / Except.
-/

namespace DeployRs

/-! ## Sentinel (canary) path construction -/

/-- Model of Rust `str::find(c)`: index of the first occurrence of `c`
in the list of chars, `none` when absent.  (Byte index and char index
agree for ASCII content.) -/
def strFind : List Char → Char → Option Nat
  | [], _ => none
  | a :: rest, c => if a = c then some 0 else (strFind rest c).map (fun i => i + 1)

/-- `make_lock_path` from `src/lib.rs` lines 20-24: it slices the closure
from byte 11 (the length of the store prefix) up to the position of the
first dash found by `closure.find` (or the end when there is none), and
glues `temp_path`, the literal `/deploy-rs-canary-` and that slice.
The unchecked slice panics when the first dash sits before byte 11 or
the string is shorter than 11 bytes; that case is modelled as `none`.
This function is called by the agent (`src/bin/activate.rs` lines 283
and 337) and by the current controller confirm step (`src/deploy.rs`
line 222). -/
def make_lock_path (temp_path closure : String) : Option String :=
  let i := (strFind closure.toList '-').getD closure.toList.length
  if 11 ≤ i then
    some (temp_path ++ "/deploy-rs-canary-" ++ String.mk ((closure.toList.drop 11).take (i - 11)))
  else none

/-- The controller-side sentinel path of `src/utils/deploy.rs` lines
167-168: it slices the profile's store path from byte 11 to the end and
glues `temp_path`, the literal `/deploy-rs-canary-` and that slice.
It strips only the store prefix and keeps everything after it (no cut
at the first dash).  The slice panics when the path is shorter than 11
bytes; that case is modelled as `none`. -/
def utils_deploy_lock_path (temp_path closure : String) : Option String :=
  if 11 ≤ closure.toList.length then
    some (temp_path ++ "/deploy-rs-canary-" ++ String.mk (closure.toList.drop 11))
  else none

/-- Sentinel path as the specification words it: `temp/deploy-rs-canary-hash`
where `hash` is the closure path with the leading `/nix/store/` stripped and
everything from the first dash dropped (refinement target, written from the
spec's words, to be compared against `make_lock_path`). -/
def sentinel_path_spec (temp_path closure : String) : String :=
  temp_path ++ "/deploy-rs-canary-" ++
    String.mk ((closure.toList.drop 11).takeWhile (fun c => c ≠ '-'))

/-! ## Generic settings and their merge (src/settings.rs, src/data.rs) -/

/-- `GenericSettings` from `src/settings.rs` lines 11-53.  `u16` timeouts are
modelled as `Nat`. -/
structure GenericSettings where
  ssh_user : Option String
  user : Option String
  ssh_opts : List String
  fast_connection : Bool
  auto_rollback : Bool
  confirm_timeout : Option Nat
  temp_path : Option String
  magic_rollback : Bool
deriving DecidableEq

/-- `merge::option::overwrite_none`: the left (self) value survives when it is
`some`; only a `none` is filled in from the right.  This is the merge crate's
`Merge` instance for `Option`, the default strategy used for the `Option`
fields of `GenericSettings`. -/
def overwrite_none {α : Type} (a b : Option α) : Option α :=
  match a with
  | some x => some x
  | none => b

/-- `merge::bool::overwrite_false`: left is replaced only when it is `false`
(i.e. boolean or). -/
def bool_overwrite_false (a b : Bool) : Bool :=
  if a then a else b

/-- `merge::bool::overwrite_true`: left is replaced only when it is `true`
(i.e. boolean and). -/
def bool_overwrite_true (a b : Bool) : Bool :=
  if a then b else a

/-- The derived `Merge` impl for `GenericSettings` (src/settings.rs):
`Option` fields use `overwrite_none`, `ssh_opts` uses `merge::vec::append`
(right appended onto left), `fast_connection` uses `overwrite_false`,
`auto_rollback` and `magic_rollback` use `overwrite_true`. -/
def GenericSettings.merge (s o : GenericSettings) : GenericSettings where
  ssh_user := overwrite_none s.ssh_user o.ssh_user
  user := overwrite_none s.user o.user
  ssh_opts := s.ssh_opts ++ o.ssh_opts
  fast_connection := bool_overwrite_false s.fast_connection o.fast_connection
  auto_rollback := bool_overwrite_true s.auto_rollback o.auto_rollback
  confirm_timeout := overwrite_none s.confirm_timeout o.confirm_timeout
  temp_path := overwrite_none s.temp_path o.temp_path
  magic_rollback := bool_overwrite_true s.magic_rollback o.magic_rollback

/-- The settings merge of `DeployData::new` (`src/data.rs` lines 413-416):

    let mut merged_settings = cmd_settings.clone();
    merged_settings.merge(profile.generic_settings.clone());
    merged_settings.merge(node.generic_settings.clone());
    merged_settings.merge(top_settings.clone());

(The older `make_deploy_data` in `src/lib.rs` lines 380-401 merges
profile, node, top and then applies the command-line overrides
unconditionally on top; for the `Option` scalars it yields the same
precedence: command line first, then profile, node, root.) -/
def mergedSettings (cmd profile node top : GenericSettings) : GenericSettings :=
  ((cmd.merge profile).merge node).merge top

/-- A `GenericSettings` with nothing set, the base for concrete examples. -/
def gsEmpty : GenericSettings :=
  ⟨none, none, [], false, false, none, none, false⟩

/-! ## Deployment coordinator: unit loop and revocation walk (src/cli.rs) -/

/-- The data of one deploy unit that the coordinator's failure handling
consults: the unit's merged `auto_rollback` setting, whether its
`deploy_profile` call succeeds and whether its `revoke` call succeeds.
(The latter two model the outcomes of the corresponding SSH commands.) -/
structure PartSpec where
  auto_rollback : Option Bool
  deployOk : Bool
  revokeOk : Bool
deriving DecidableEq

/-- The error cases of `run_deploy` (src/cli.rs) that the embedded loop can
produce:  a propagated revocation failure (`RunDeployError::RevokeProfile`)
or a missing profile during resolution (`RunDeployError::ProfileNotFound`). -/
inductive RunDeployError where
  | RevokeProfile
  | ProfileNotFound (name : String)
deriving DecidableEq

/-- The revocation walk in `run_deploy`'s failure branch (src/cli.rs
lines 571-575): for each pair in `succeeded`, when its merged
`auto_rollback.unwrap_or(true)` holds, `revoke` is invoked over SSH, and
the trailing question-mark operator propagates any revocation failure
immediately out of `run_deploy`.
`succeeded` is the list of (unit index, unit) pairs that deployed
successfully, in application order.  Returns the indices on which
`revoke` was invoked, in order, and the error propagated by `?` when an
invoked revocation fails. -/
def revokeWalk : List (Nat × PartSpec) → List Nat × Option RunDeployError
  | [] => ([], none)
  | (i, p) :: rest =>
    if p.auto_rollback.getD true then
      if p.revokeOk then
        let r := revokeWalk rest
        (i :: r.1, r.2)
      else ([i], some RunDeployError.RevokeProfile)
    else revokeWalk rest

/-- Outcome of the coordinator's unit loop: the indices revoke was invoked
on (in order), whether the "dry run, not rolling back" line was logged, and
the value `run_deploy` returns. -/
structure RunDeployOutcome where
  revoked : List Nat
  dryRunLogged : Bool
  result : Except RunDeployError Unit

/-- The unit loop of `run_deploy` (src/cli.rs lines 553-582).  For each unit
in order: on success push it onto `succeeded` and continue; on its failure,
log the error (and the dry-run line when `dry_activate`), and when
`rollback_succeeded && cmd_overrides.auto_rollback.unwrap_or(true)` run the
revocation walk over `succeeded`, then break.  A deploy failure itself is
not returned; only a propagated revocation failure is. -/
def deployLoop (dry_activate rollback_succeeded : Bool) (cmd_auto_rollback : Option Bool) :
    List PartSpec → Nat → List (Nat × PartSpec) → RunDeployOutcome
  | [], _, _ => ⟨[], false, Except.ok ()⟩
  | p :: rest, i, succeeded =>
    if p.deployOk then
      deployLoop dry_activate rollback_succeeded cmd_auto_rollback rest (i + 1)
        (succeeded ++ [(i, p)])
    else
      if rollback_succeeded && cmd_auto_rollback.getD true then
        let w := revokeWalk succeeded
        ⟨w.1, dry_activate,
          match w.2 with
          | some e => Except.error e
          | none => Except.ok ()⟩
      else ⟨[], dry_activate, Except.ok ()⟩

/-- `run_deploy` restricted to its unit loop (src/cli.rs lines 553-582),
starting with no succeeded units. -/
def run_deploy_units (parts : List PartSpec) (dry_activate rollback_succeeded : Bool)
    (cmd_auto_rollback : Option Bool) : RunDeployOutcome :=
  deployLoop dry_activate rollback_succeeded cmd_auto_rollback parts 0 []

/-- The indices of the units of `good` (numbered from 0) whose merged
`auto_rollback` defaults to or is set to true: the units eligible for
revocation.  (Statement-side formula for the revocation-walk theorem.) -/
def eligibleIdx (good : List PartSpec) : List Nat :=
  ((List.enumFrom 0 good).filter (fun x => x.2.auto_rollback.getD true)).map Prod.fst

/-! ## Resolver profile ordering (src/cli.rs lines 434-464, src/data.rs lines 94-116) -/

/-- A node profile; only the store path matters for the ordering claims. -/
structure Profile where
  path : String
deriving DecidableEq

/-- `HashMap::get` on the profiles map, modelled over the map's snapshot as
a list of key-value pairs in iteration order. -/
def lookupProfile (m : List (String × Profile)) (k : String) : Option Profile :=
  (m.find? (fun x => x.1 == k)).map Prod.snd

/-- The `profiles_list` accumulation of `run_deploy` for a node-only target
(src/cli.rs lines 442-458): walk the concatenation of `profiles_order` and
the profile-map keys; each name must resolve in the map (else
`RunDeployError::ProfileNotFound`); a name already pushed is skipped. -/
def buildProfilesList (profiles : List (String × Profile)) :
    List String → List (String × Profile) → Except RunDeployError (List (String × Profile))
  | [], acc => Except.ok acc
  | nm :: rest, acc =>
    match lookupProfile profiles nm with
    | none => Except.error (RunDeployError.ProfileNotFound nm)
    | some p =>
      if acc.any (fun x => x.1 == nm) then buildProfilesList profiles rest acc
      else buildProfilesList profiles rest (acc ++ [(nm, p)])

/-- The ordered profile list a node-only target expands to
(src/cli.rs lines 442-458; `Target::resolve` in src/data.rs lines
94-116 produces the same order via the union of two `LinkedHashSet`s):
`profiles_order` entries first, then the remaining profile-map keys in
the map's iteration order, with duplicates dropped. -/
def node_profiles_list (profiles : List (String × Profile)) (profiles_order : List String) :
    Except RunDeployError (List (String × Profile)) :=
  buildProfilesList profiles (profiles_order ++ profiles.map Prod.fst) []

/-! ## The activation agent (src/bin/activate.rs) -/

/-- Outcome of the race inside `danger_zone` (src/bin/activate.rs lines
264-276) between `timeout(confirm_timeout, events.recv())` and the watcher
channel: a message `Ok(())` was received in time, a message `Err(e)` was
received in time, the channel closed without a message, or the timeout
elapsed first. -/
inductive DangerOutcome where
  | received
  | recvError
  | streamEnd
  | elapsed
deriving DecidableEq

/-- `DangerZoneError` (src/bin/activate.rs lines 254-262); the payload of
`Watch` (the watcher error) is dropped. -/
inductive DangerZoneError where
  | TimesUp
  | NoConfirmation
  | Watch
deriving DecidableEq

/-- `danger_zone` (src/bin/activate.rs lines 264-276): the four-way match on
`timeout(Duration::from_secs(confirm_timeout), events.recv()).await`.
The timeout duration is carried for the statements; the race's outcome is
the `DangerOutcome` input. -/
def danger_zone (confirm_timeout : Nat) (o : DangerOutcome) : Except DangerZoneError Unit :=
  match confirm_timeout, o with
  | _, DangerOutcome.received => Except.ok ()
  | _, DangerOutcome.recvError => Except.error DangerZoneError.Watch
  | _, DangerOutcome.streamEnd => Except.error DangerZoneError.NoConfirmation
  | _, DangerOutcome.elapsed => Except.error DangerZoneError.TimesUp

/-- Kinds of filesystem events the watcher callbacks discriminate on. -/
inductive FsEventKind where
  | createFile
  | removeFile
  | other
deriving DecidableEq

/-- A filesystem-watcher callback argument: an event with its kind and
paths, or a watcher error. -/
inductive FsEvent where
  | ok (kind : FsEventKind) (paths : List String)
  | err
deriving DecidableEq

/-- The activate-side watcher callback (src/bin/activate.rs lines 304-320):
sends `Ok(())` on a `Remove(RemoveKind::File)` event, forwards a watcher
error, and ignores every other event kind (`none` = nothing sent on the
channel). -/
def activation_watcher_send (res : FsEvent) : Option (Except Unit Unit) :=
  match res with
  | FsEvent.ok FsEventKind.removeFile _ => some (Except.ok ())
  | FsEvent.err => some (Except.error ())
  | FsEvent.ok _ _ => none

/-- The wait-side watcher callback (src/bin/activate.rs lines 345-365):
sends `Ok(())` only on a `Create(CreateKind::File)` event whose single path
equals the canonicalised sentinel path (`canon` models
`Path::canonicalize`, `none` when it fails because the sentinel does not
exist yet), forwards a watcher error, ignores everything else. -/
def wait_watcher_send (lock_path : String) (canon : String → Option String)
    (res : FsEvent) : Option (Except Unit Unit) :=
  match res with
  | FsEvent.ok FsEventKind.createFile paths =>
    match paths with
    | [x] =>
      match canon lock_path with
      | some lp => if x = lp then some (Except.ok ()) else none
      | none => none
    | _ => none
  | FsEvent.err => some (Except.error ())
  | FsEvent.ok _ _ => none

/-- `ActivationConfirmationError` (src/bin/activate.rs lines 242-252);
io/notify payloads dropped. -/
inductive ActivationConfirmationError where
  | CreateConfirmDir
  | CreateConfirmFile
  | Watcher
  | WaitingError (e : DangerZoneError)
deriving DecidableEq

/-- The outside world of one `activate` invocation: the exit code of
`nix-env --set` (`none` models death by signal), the exit code of the
activation script, whether creating the sentinel's parent directory, the
sentinel file, and the watcher succeed, the outcome of the confirmation
race, and whether the rollback sequence (`deactivate`) succeeds.
Spawn-level io errors of the two commands are not modelled (the claims
are about exit codes). -/
structure AgentEnv where
  set_profile_code : Option Int
  run_activate_code : Option Int
  create_dir_ok : Bool
  create_file_ok : Bool
  watcher_ok : Bool
  danger : DangerOutcome
  deactivate_ok : Bool

/-- Trace events of the embedded agent. -/
inductive AgentEv where
  | setProfile
  | runActivate
  | createConfirmDir
  | createSentinel
  | armSentinelWatcher
  | awaitConfirm (confirm_timeout : Nat)
  | deactivate
deriving DecidableEq

/-- `activation_confirmation` (src/bin/activate.rs lines 278-327): ensure
the sentinel's parent directory exists, create the sentinel file, install
the watcher on it (non-recursive), then run `danger_zone` with
`confirm_timeout`, wrapping its error in `WaitingError`. -/
def activation_confirmation (env : AgentEnv) (confirm_timeout : Nat) :
    List AgentEv × Except ActivationConfirmationError Unit :=
  if env.create_dir_ok then
    if env.create_file_ok then
      if env.watcher_ok then
        ([AgentEv.createConfirmDir, AgentEv.createSentinel, AgentEv.armSentinelWatcher,
            AgentEv.awaitConfirm confirm_timeout],
          (danger_zone confirm_timeout env.danger).mapError ActivationConfirmationError.WaitingError)
      else
        ([AgentEv.createConfirmDir, AgentEv.createSentinel],
          Except.error ActivationConfirmationError.Watcher)
    else
      ([AgentEv.createConfirmDir], Except.error ActivationConfirmationError.CreateConfirmFile)
  else
    ([AgentEv.createConfirmDir], Except.error ActivationConfirmationError.CreateConfirmDir)

/-- `ActivateError` (src/bin/activate.rs lines 401-414); the two exit
variants keep the exit code, the deactivation-failure variant drops its
payload. -/
inductive ActivateError where
  | SetProfileExit (code : Option Int)
  | RunActivateExit (code : Option Int)
  | Deactivate
  | ActivationConfirmation (e : ActivationConfirmationError)
deriving DecidableEq

/-- `activate` (src/bin/activate.rs lines 416-510).
When not dry-activate, run `nix-env --set`; on a non-zero code, when
`auto_rollback && !dry_activate`, run the rollback sequence, then return
`SetProfileExit`.  Run the activation script; when not dry-activate, a
non-zero script code triggers the rollback sequence when `auto_rollback`
and returns `RunActivateExit`; then, when `magic_rollback && !boot`, run
`activation_confirmation`, and on its error run the rollback sequence and
return the error.  A failing rollback sequence surfaces as `Deactivate`
instead.  In dry-activate mode the script's exit code is never checked and
no watchdog is armed. -/
def activate (auto_rollback dry_activate boot magic_rollback : Bool)
    (confirm_timeout : Nat) (env : AgentEnv) : List AgentEv × Except ActivateError Unit :=
  if dry_activate then
    ([AgentEv.runActivate], Except.ok ())
  else
    if env.set_profile_code = some 0 then
      if env.run_activate_code = some 0 then
        if magic_rollback && !boot then
          match activation_confirmation env confirm_timeout with
          | (tr, Except.ok ()) =>
            ([AgentEv.setProfile, AgentEv.runActivate] ++ tr, Except.ok ())
          | (tr, Except.error e) =>
            if env.deactivate_ok then
              ([AgentEv.setProfile, AgentEv.runActivate] ++ tr ++ [AgentEv.deactivate],
                Except.error (ActivateError.ActivationConfirmation e))
            else
              ([AgentEv.setProfile, AgentEv.runActivate] ++ tr ++ [AgentEv.deactivate],
                Except.error ActivateError.Deactivate)
        else
          ([AgentEv.setProfile, AgentEv.runActivate], Except.ok ())
      else
        if auto_rollback then
          if env.deactivate_ok then
            ([AgentEv.setProfile, AgentEv.runActivate, AgentEv.deactivate],
              Except.error (ActivateError.RunActivateExit env.run_activate_code))
          else
            ([AgentEv.setProfile, AgentEv.runActivate, AgentEv.deactivate],
              Except.error ActivateError.Deactivate)
        else
          ([AgentEv.setProfile, AgentEv.runActivate],
            Except.error (ActivateError.RunActivateExit env.run_activate_code))
    else
      if auto_rollback then
        if env.deactivate_ok then
          ([AgentEv.setProfile, AgentEv.deactivate],
            Except.error (ActivateError.SetProfileExit env.set_profile_code))
        else
          ([AgentEv.setProfile, AgentEv.deactivate], Except.error ActivateError.Deactivate)
      else
        ([AgentEv.setProfile], Except.error (ActivateError.SetProfileExit env.set_profile_code))

/-- The outside world of one `wait` invocation: whether installing the
watcher on `temp_path` succeeds, whether the sentinel file already exists
at the post-arming existence check, whether `unwatch` succeeds, and the
outcome of the creation-event race. -/
structure WaitEnv where
  watcher_ok : Bool
  sentinel_exists : Bool
  unwatch_ok : Bool
  danger : DangerOutcome

/-- `WaitError` (src/bin/activate.rs lines 329-335). -/
inductive WaitError where
  | Watcher
  | Waiting (e : DangerZoneError)
deriving DecidableEq

/-- Trace events of the embedded `wait`. -/
inductive WaitEv where
  | armTempWatcher (nonrecursive : Bool)
  | checkSentinel
  | unwatchTemp
  | awaitCreation (timeout : Nat)
deriving DecidableEq

/-- `wait` (src/bin/activate.rs lines 336-381): install the watcher on
`temp_path` with `RecursiveMode::NonRecursive`, then (to avoid the race)
check whether the sentinel already exists — if so unwatch and return
success — otherwise run `danger_zone` with
`activation_timeout.unwrap_or(240)`. -/
def wait_run (env : WaitEnv) (activation_timeout : Option Nat) :
    List WaitEv × Except WaitError Unit :=
  if env.watcher_ok then
    if env.sentinel_exists then
      if env.unwatch_ok then
        ([WaitEv.armTempWatcher true, WaitEv.checkSentinel, WaitEv.unwatchTemp], Except.ok ())
      else
        ([WaitEv.armTempWatcher true, WaitEv.checkSentinel, WaitEv.unwatchTemp],
          Except.error WaitError.Watcher)
    else
      ([WaitEv.armTempWatcher true, WaitEv.checkSentinel,
          WaitEv.awaitCreation (activation_timeout.getD 240)],
        (danger_zone (activation_timeout.getD 240) env.danger).mapError WaitError.Waiting)
  else
    ([WaitEv.armTempWatcher true], Except.error WaitError.Watcher)

/-! ## Target descriptor parsing (src/data.rs lines 161-245) -/

/-- `Target` (src/data.rs lines 15-21). -/
structure Target where
  repo : String
  node : Option String
  profile : Option String
  ip : Option String
deriving DecidableEq

/-- `ParseTargetError` (src/data.rs lines 23-29). -/
inductive ParseTargetError where
  | PathTooLong
  | Unrecognized
deriving DecidableEq

/-- The tokens `Target::from_str`'s loop discriminates on: a dot between
attribute-path components, a bare identifier, or a quoted string (with the
quotes stripped, as the source takes the inner token of a `NODE_STRING`). -/
inductive FragTok where
  | dot
  | ident (s : String)
  | qstr (s : String)
deriving DecidableEq

/-- First character class of a bare identifier of the attribute-path
grammar. -/
def isIdentStart (c : Char) : Bool :=
  c.isAlpha || c = '_'

/-- Later character class of a bare identifier of the attribute-path
grammar. -/
def isIdentChar (c : Char) : Bool :=
  c.isAlphanum || c = '_' || c = '-'

/-- Modelled from the spec: the fragment tokenisation that the external
`rnix` crate performs in `Target::from_str` (src/data.rs line 190,
`rnix::parse(target)` followed by walking `children_with_tokens`).  The
spec describes descriptors by "the declarative-language attribute-path
grammar (bare identifiers, quoted strings, dots)"; this function turns a
fragment into that token list: an empty fragment gives no tokens, a dot
gives `FragTok.dot`, a double-quoted run gives `FragTok.qstr` of its
content, a maximal identifier run gives `FragTok.ident`, and anything
else is not tokenisable (`none`, surfacing as `Unrecognized`). -/
def tokenize : List Char → Option (List FragTok)
  | [] => some []
  | c :: rest =>
    if c = '.' then (tokenize rest).map (fun ts => FragTok.dot :: ts)
    else if c = '"' then
      match h : strFind rest '"' with
      | none => none
      | some i =>
        (tokenize (rest.drop (i + 1))).map
          (fun ts => FragTok.qstr (String.mk (rest.take i)) :: ts)
    else if isIdentStart c then
      (tokenize (rest.dropWhile isIdentChar)).map
        (fun ts => FragTok.ident (String.mk (c :: rest.takeWhile isIdentChar)) :: ts)
    else none
termination_by l => l.length
decreasing_by
  · simp only [List.length_cons]; omega
  · have hd := List.length_drop (i + 1) rest
    simp only [List.length_cons]; omega
  · have hd : (List.dropWhile isIdentChar rest).length ≤ rest.length := by
      induction rest with
      | nil => simp
      | cons a l ih =>
        by_cases ha : isIdentChar a
        · simp only [List.dropWhile_cons, ha, if_true, List.length_cons]; omega
        · simp [List.dropWhile_cons, ha]
    simp only [List.length_cons]; omega

/-- The token loop of `Target::from_str` (src/data.rs lines 204-235): the
first dot flips `node_over` (and, the assignment running after the flip,
resets `profile` to `None`); a second dot is `PathTooLong`; an identifier
or string is written to `node` before the flip and to `profile` after
it. -/
def fragLoop : List FragTok → Bool → Option String → Option String →
    Except ParseTargetError (Option String × Option String)
  | [], _, node, profile => Except.ok (node, profile)
  | FragTok.dot :: rest, false, node, _ => fragLoop rest true node none
  | FragTok.dot :: _, true, _, _ => Except.error ParseTargetError.PathTooLong
  | FragTok.ident s :: rest, over, node, profile =>
    if over then fragLoop rest over node (some s) else fragLoop rest over (some s) profile
  | FragTok.qstr s :: rest, over, node, profile =>
    if over then fragLoop rest over node (some s) else fragLoop rest over (some s) profile

/-- `Target::from_str` (src/data.rs lines 161-245): split at the first
hash into repo and fragment (no hash: the whole string is the repo); split
the fragment at the first at-sign into the attribute path and the ip;
tokenise the attribute path (an empty token list is the source's missing
`first_child`, returning early with no node and no profile but keeping
the ip); run the token loop. -/
def Target.from_str (s : String) : Except ParseTargetError Target :=
  match strFind s.toList '#' with
  | none => Except.ok ⟨s, none, none, none⟩
  | some i =>
    let repo := String.mk (s.toList.take i)
    let tfull := s.toList.drop (i + 1)
    let targetChars :=
      match strFind tfull '@' with
      | some j => tfull.take j
      | none => tfull
    let ip :=
      match strFind tfull '@' with
      | some j => some (String.mk (tfull.drop (j + 1)))
      | none => none
    match tokenize targetChars with
    | none => Except.error ParseTargetError.Unrecognized
    | some [] => Except.ok ⟨repo, none, none, ip⟩
    | some (t :: ts) =>
      match fragLoop (t :: ts) false none none with
      | Except.error e => Except.error e
      | Except.ok (n, p) => Except.ok ⟨repo, n, p, ip⟩

/-- Modelled from the spec: the rendered descriptor form
`repo[#node[.profile][@host]]` of a target tuple (§2 and §8 of the spec;
there is no renderer in the source).  Node and profile are rendered as
bare identifiers; without a node no fragment is rendered. -/
def Target.render (t : Target) : String :=
  t.repo ++
    (match t.node, t.profile with
     | some n, some p => "#" ++ n ++ "." ++ p
     | some n, none => "#" ++ n
     | none, _ => "") ++
    (match t.node, t.ip with
     | some _, some h => "@" ++ h
     | _, _ => "")

/-- A bare identifier of the attribute-path grammar: nonempty, an
identifier-start character followed by identifier characters. -/
def isBareIdent (s : String) : Bool :=
  match s.toList with
  | [] => false
  | c :: rest => isIdentStart c && rest.all isIdentChar

/-- A canonical target tuple (spec §3: if `profile` is set, `node` must be
set; a host override is only valid when a node is explicitly named; the
repo must not contain the fragment separator; node and profile are bare
identifiers of the attribute-path grammar). -/
def Target.canonical (t : Target) : Prop :=
  ('#' ∉ t.repo.toList) ∧
  (t.node = none → t.profile = none ∧ t.ip = none) ∧
  (∀ n, t.node = some n → isBareIdent n = true) ∧
  (∀ p, t.profile = some p → isBareIdent p = true)

instance (t : Target) : Decidable t.canonical := by
  unfold Target.canonical
  infer_instance

end DeployRs

namespace DeployRs

/-! ## Helper lemmas -/

theorem strFind_append_not_mem (c : Char) (l₁ l₂ : List Char) (h : ∀ a ∈ l₁, a ≠ c) :
    strFind (l₁ ++ l₂) c = (strFind l₂ c).map (fun i => i + l₁.length) := by
  induction l₁ with
  | nil => cases hf : strFind l₂ c <;> simp [hf]
  | cons a l ih =>
    have ha : a ≠ c := h a (List.mem_cons_self a l)
    have h2 : ∀ x ∈ l, x ≠ c := fun x hx => h x (List.mem_cons_of_mem a hx)
    cases hf : strFind l₂ c with
    | none => simp [strFind, ha, ih h2, hf]
    | some n => simp [strFind, ha, ih h2, hf]; omega

theorem take_strFind_eq_takeWhile (c : Char) (l : List Char) :
    l.take ((strFind l c).getD l.length) = l.takeWhile (fun a => a ≠ c) := by
  induction l with
  | nil => simp
  | cons a l ih =>
    by_cases ha : a = c
    · subst ha
      simp [strFind, List.takeWhile_cons]
    · cases hf : strFind l c with
      | none =>
        simp only [strFind, if_neg ha, hf, Option.map_none', Option.getD_none,
          List.length_cons, List.take_succ_cons, List.takeWhile_cons, decide_not]
        simp only [hf, Option.getD_none] at ih
        simp [ha, ih]
      | some n =>
        simp only [strFind, if_neg ha, hf, Option.map_some', Option.getD_some,
          List.take_succ_cons, List.takeWhile_cons]
        simp only [hf, Option.getD_some] at ih
        simp [ha, ih]

/-- Core fact behind the sentinel-path claims: on a closure that starts with
the store prefix, `make_lock_path` succeeds and computes exactly the
spec-side sentinel path. -/
theorem make_lock_path_store_eq (temp closure : String) (rest : List Char)
    (h : closure.toList = "/nix/store/".toList ++ rest) :
    make_lock_path temp closure = some (sentinel_path_spec temp closure) := by
  have hpre : ∀ a ∈ "/nix/store/".toList, a ≠ '-' := by decide
  have hlen : ("/nix/store/".toList).length = 11 := by decide
  have hfind : strFind closure.toList '-' = (strFind rest '-').map (fun i => i + 11) := by
    rw [h, strFind_append_not_mem '-' _ _ hpre, hlen]
  have hdrop : closure.toList.drop 11 = rest := by
    rw [h, ← hlen, List.drop_left]
  have hclen : closure.toList.length = 11 + rest.length := by
    rw [h]; simp [hlen]; omega
  have htw := take_strFind_eq_takeWhile '-' rest
  simp only [make_lock_path, sentinel_path_spec, hfind, hdrop, hclen]
  cases hf : strFind rest '-' with
  | none =>
    rw [hf] at htw
    simp only [Option.getD_none] at htw
    simp only [Option.map_none', Option.getD_none]
    rw [if_pos (by omega)]
    rw [show 11 + rest.length - 11 = rest.length by omega, htw]
  | some n =>
    rw [hf] at htw
    simp only [Option.getD_some] at htw
    simp only [Option.map_some', Option.getD_some]
    rw [if_pos (by omega)]
    rw [show n + 11 - 11 = n by omega, htw]

/-! ## C1: sentinel path agreement between controller and agent -/

/-- Claim C1, counterexample: at temp path `/tmp` and closure
`/nix/store/abc-x`, the controller of `src/utils/deploy.rs` lines 167-168
computes `/tmp/deploy-rs-canary-abc-x` while `make_lock_path` (the function
the agent uses, src/lib.rs lines 20-24) computes
`/tmp/deploy-rs-canary-abc`: the two cited sentinel computations are not
byte-equal. -/
theorem utils_controller_sentinel_differs :
    utils_deploy_lock_path "/tmp" "/nix/store/abc-x" = some "/tmp/deploy-rs-canary-abc-x" ∧
    make_lock_path "/tmp" "/nix/store/abc-x" = some "/tmp/deploy-rs-canary-abc" ∧
    utils_deploy_lock_path "/tmp" "/nix/store/abc-x"
        ≠ make_lock_path "/tmp" "/nix/store/abc-x" :=
  ⟨rfl, rfl, by decide⟩

/-- Claim C1, amended: for every `(temp, closure)` with `closure` starting with
`/nix/store/`, the shared function `make_lock_path` — called by the agent
(src/bin/activate.rs lines 283 and 337) and by the current controller
confirm step (src/deploy.rs line 222), which are therefore byte-equal —
computes exactly the sentinel path of the spec,
`temp/deploy-rs-canary-hash` with the store prefix stripped and everything
from the first dash dropped.  (The historical controller of
src/utils/deploy.rs keeps the dash suffix and so disagrees with the agent
whenever the stripped closure contains a dash.) -/
theorem sentinel_shared_function_matches_spec (temp closure : String) (rest : List Char)
    (h : closure.toList = "/nix/store/".toList ++ rest) :
    make_lock_path temp closure = some (sentinel_path_spec temp closure) :=
  make_lock_path_store_eq temp closure rest h

/-- Witness for claim C1's theorem at a concrete store path. -/
theorem sentinel_shared_function_matches_spec_witness :
    make_lock_path "/tmp" "/nix/store/abc-x"
        = some (sentinel_path_spec "/tmp" "/nix/store/abc-x") :=
  sentinel_shared_function_matches_spec "/tmp" "/nix/store/abc-x" ("abc-x".toList) rfl

/-! ## C10: panic conditions of make_lock_path -/

/-- Claim C10: `make_lock_path` never panics (returns `some`) when the closure
begins with `/nix/store/`, and the unchecked slicing panics (modelled
`none`) on concrete closures not beginning with that prefix: one with a
dash before byte 11 and one shorter than 11 bytes. -/
theorem make_lock_path_panic_conditions :
    (∀ temp closure : String, (∃ rest, closure.toList = "/nix/store/".toList ++ rest) →
      (make_lock_path temp closure).isSome = true) ∧
    make_lock_path "/tmp" "a-b" = none ∧
    make_lock_path "/tmp" "short" = none := by
  refine ⟨?_, rfl, rfl⟩
  intro temp closure hrest
  obtain ⟨rest, h⟩ := hrest
  rw [make_lock_path_store_eq temp closure rest h]
  rfl

/-- Witness for claim C10's theorem at a concrete store path. -/
theorem make_lock_path_panic_conditions_witness :
    (make_lock_path "/tmp" "/nix/store/qrs-tool").isSome = true :=
  make_lock_path_panic_conditions.1 "/tmp" "/nix/store/qrs-tool" ⟨"qrs-tool".toList, rfl⟩

/-! ## C6: settings merge precedence -/

theorem overwrite_none_chain {α : Type} (a b c d : Option α) :
    overwrite_none (overwrite_none (overwrite_none a b) c) d = a.or (b.or (c.or d)) := by
  cases a <;> cases b <;> cases c <;> rfl

theorem overwrite_false_chain (a b c d : Bool) :
    bool_overwrite_false (bool_overwrite_false (bool_overwrite_false a b) c) d
      = (a || (b || (c || d))) := by
  cases a <;> cases b <;> cases c <;> rfl

theorem overwrite_true_chain (a b c d : Bool) :
    bool_overwrite_true (bool_overwrite_true (bool_overwrite_true a b) c) d
      = (a && (b && (c && d))) := by
  cases a <;> cases b <;> cases c <;> rfl

/-- Claim C6, counterexample: with a command-line override `--ssh-user a` and a
profile declaring ssh user `b`, the merged settings of `DeployData::new`
keep `a`: the per-profile setting does not override the command line, so
the claimed later-level-wins precedence fails on the code. -/
theorem merged_settings_cmd_beats_profile :
    (mergedSettings ⟨some "a", none, [], false, true, none, none, true⟩
        ⟨some "b", none, [], false, true, none, none, true⟩ gsEmpty gsEmpty).ssh_user
      = some "a" ∧
    (⟨some "b", none, [], false, true, none, none, true⟩ : GenericSettings).ssh_user
      = some "b" ∧
    (mergedSettings ⟨some "a", none, [], false, true, none, none, true⟩
        ⟨some "b", none, [], false, true, none, none, true⟩ gsEmpty gsEmpty).ssh_user
      ≠ some "b" :=
  ⟨rfl, rfl, by decide⟩

/-- Claim C6, amended: `DeployData::new` merges the four levels in the order
command line, profile, node, root, and for the `Option` scalar fields the
EARLIEST level that sets a value wins (command line over profile over node
over root); merged `ssh_opts` is the concatenation of the four levels'
sequences, earliest (command line) first; the or-merged boolean
`fast_connection` is the disjunction and the and-merged booleans
`auto_rollback` and `magic_rollback` are the conjunction of the four
levels. -/
theorem merged_settings_precedence (cmd profile node top : GenericSettings) :
    (mergedSettings cmd profile node top).ssh_user
        = cmd.ssh_user.or (profile.ssh_user.or (node.ssh_user.or top.ssh_user)) ∧
    (mergedSettings cmd profile node top).user
        = cmd.user.or (profile.user.or (node.user.or top.user)) ∧
    (mergedSettings cmd profile node top).confirm_timeout
        = cmd.confirm_timeout.or
            (profile.confirm_timeout.or (node.confirm_timeout.or top.confirm_timeout)) ∧
    (mergedSettings cmd profile node top).temp_path
        = cmd.temp_path.or (profile.temp_path.or (node.temp_path.or top.temp_path)) ∧
    (mergedSettings cmd profile node top).ssh_opts
        = cmd.ssh_opts ++ (profile.ssh_opts ++ (node.ssh_opts ++ top.ssh_opts)) ∧
    (mergedSettings cmd profile node top).fast_connection
        = (cmd.fast_connection
            || (profile.fast_connection || (node.fast_connection || top.fast_connection))) ∧
    (mergedSettings cmd profile node top).auto_rollback
        = (cmd.auto_rollback
            && (profile.auto_rollback && (node.auto_rollback && top.auto_rollback))) ∧
    (mergedSettings cmd profile node top).magic_rollback
        = (cmd.magic_rollback
            && (profile.magic_rollback && (node.magic_rollback && top.magic_rollback))) := by
  refine ⟨overwrite_none_chain _ _ _ _, overwrite_none_chain _ _ _ _,
    overwrite_none_chain _ _ _ _, overwrite_none_chain _ _ _ _, ?_,
    overwrite_false_chain _ _ _ _, overwrite_true_chain _ _ _ _,
    overwrite_true_chain _ _ _ _⟩
  simp [mergedSettings, GenericSettings.merge]

end DeployRs

namespace DeployRs

theorem snd_mem_of_mem_enumFrom {α : Type} (l : List α) :
    ∀ (n : Nat) (x : Nat × α), x ∈ List.enumFrom n l → x.2 ∈ l := by
  induction l with
  | nil => intro n x hx; simp [List.enumFrom] at hx
  | cons a l ih =>
    intro n x hx
    rw [List.enumFrom_cons] at hx
    rcases List.mem_cons.1 hx with h | h
    · subst h; exact List.mem_cons_self a l
    · exact List.mem_cons_of_mem a (ih (n + 1) x h)

theorem revokeWalk_clean (succ : List (Nat × PartSpec))
    (h : ∀ x ∈ succ, x.2.auto_rollback.getD true = true → x.2.revokeOk = true) :
    revokeWalk succ
      = ((succ.filter (fun x => x.2.auto_rollback.getD true)).map Prod.fst, none) := by
  induction succ with
  | nil => rfl
  | cons a rest ih =>
    obtain ⟨i, p⟩ := a
    have hrest := fun x hx => h x (List.mem_cons_of_mem _ hx)
    by_cases hp : p.auto_rollback.getD true = true
    · have hrev : p.revokeOk = true := h (i, p) (List.mem_cons_self _ _) hp
      simp [revokeWalk, hp, hrev, ih hrest, List.filter_cons]
    · simp only [Bool.not_eq_true] at hp
      simp [revokeWalk, hp, ih hrest, List.filter_cons]

theorem revokeWalk_stop (s₁ : List (Nat × PartSpec)) (j : Nat) (q : PartSpec)
    (s₂ : List (Nat × PartSpec))
    (h1 : ∀ x ∈ s₁, x.2.auto_rollback.getD true = true → x.2.revokeOk = true)
    (hq1 : q.auto_rollback.getD true = true) (hq2 : q.revokeOk = false) :
    revokeWalk (s₁ ++ (j, q) :: s₂)
      = ((s₁.filter (fun x => x.2.auto_rollback.getD true)).map Prod.fst ++ [j],
          some RunDeployError.RevokeProfile) := by
  induction s₁ with
  | nil => simp [revokeWalk, hq1, hq2]
  | cons a rest ih =>
    obtain ⟨i, p⟩ := a
    have hrest := fun x hx => h1 x (List.mem_cons_of_mem _ hx)
    by_cases hp : p.auto_rollback.getD true = true
    · have hrev : p.revokeOk = true := h1 (i, p) (List.mem_cons_self _ _) hp
      simp [revokeWalk, hp, hrev, ih hrest, List.filter_cons]
    · simp only [Bool.not_eq_true] at hp
      simp [revokeWalk, hp, ih hrest, List.filter_cons]

theorem deployLoop_reach (d r : Bool) (c : Option Bool) (good : List PartSpec)
    (bad : PartSpec) (rest : List PartSpec)
    (hg : ∀ p ∈ good, p.deployOk = true) (hb : bad.deployOk = false) :
    ∀ (n : Nat) (acc : List (Nat × PartSpec)),
    deployLoop d r c (good ++ bad :: rest) n acc =
      (if r && c.getD true then
        ⟨(revokeWalk (acc ++ List.enumFrom n good)).1, d,
          match (revokeWalk (acc ++ List.enumFrom n good)).2 with
          | some e => Except.error e
          | none => Except.ok ()⟩
      else ⟨[], d, Except.ok ()⟩) := by
  induction good with
  | nil =>
    intro n acc
    simp [deployLoop, hb]
  | cons p good ih =>
    intro n acc
    have hp : p.deployOk = true := hg p (List.mem_cons_self _ _)
    have hg2 : ∀ x ∈ good, x.deployOk = true := fun x hx => hg x (List.mem_cons_of_mem _ hx)
    simp only [List.cons_append, deployLoop, hp, if_true, List.append_eq]
    rw [ih hg2 (n + 1) (acc ++ [(n, p)])]
    rw [List.enumFrom_cons, show acc ++ (n, p) :: List.enumFrom (n + 1) good
      = (acc ++ [(n, p)]) ++ List.enumFrom (n + 1) good by simp]

end DeployRs

namespace DeployRs

/-- Claim C3, amended: when the unit after `good` fails, with
rollback-succeeded set, the coordinator invokes revoke on exactly the
previously succeeded units, in the original application order, filtered by
the command-line auto-rollback gate (default true) and by each unit's own
merged auto-rollback (default true); when every invoked revocation
succeeds the walk covers all eligible units and `run_deploy` returns `Ok`;
when an eligible unit's revocation fails the walk stops right after it and
the revocation error is returned; with either global gate off nothing is
revoked. -/
theorem revocation_walk_characterisation (d : Bool) (c : Option Bool)
    (good : List PartSpec) (bad : PartSpec) (rest : List PartSpec)
    (hg : ∀ p ∈ good, p.deployOk = true) (hb : bad.deployOk = false) :
    (c.getD true = true →
      ((∀ p ∈ good, p.auto_rollback.getD true = true → p.revokeOk = true) →
        (run_deploy_units (good ++ bad :: rest) d true c).revoked = eligibleIdx good ∧
        (run_deploy_units (good ++ bad :: rest) d true c).result = Except.ok ()) ∧
      (∀ g₁ q g₂, good = g₁ ++ q :: g₂ →
        (∀ p ∈ g₁, p.auto_rollback.getD true = true → p.revokeOk = true) →
        q.auto_rollback.getD true = true → q.revokeOk = false →
        (run_deploy_units (good ++ bad :: rest) d true c).revoked
            = eligibleIdx g₁ ++ [g₁.length] ∧
        (run_deploy_units (good ++ bad :: rest) d true c).result
            = Except.error RunDeployError.RevokeProfile)) ∧
    (c.getD true = false →
      (run_deploy_units (good ++ bad :: rest) d true c).revoked = []) ∧
    (run_deploy_units (good ++ bad :: rest) d false c).revoked = [] := by
  have hreach := deployLoop_reach d true c good bad rest hg hb 0 []
  have hreach0 := deployLoop_reach d false c good bad rest hg hb 0 []
  refine ⟨?_, ?_, ?_⟩
  · intro hc
    constructor
    · intro hclean
      have hwalk : ∀ x ∈ List.enumFrom 0 good,
          x.2.auto_rollback.getD true = true → x.2.revokeOk = true :=
        fun x hx => hclean x.2 (snd_mem_of_mem_enumFrom good 0 x hx)
      have := revokeWalk_clean (List.enumFrom 0 good) hwalk
      rw [run_deploy_units, hreach, if_pos (by simp [hc])]
      simp [this, eligibleIdx]
    · intro g₁ q g₂ hsplit h1 hq1 hq2
      subst hsplit
      have henum : List.enumFrom 0 (g₁ ++ q :: g₂)
          = List.enumFrom 0 g₁ ++ (g₁.length, q) :: List.enumFrom (g₁.length + 1) g₂ := by
        rw [List.enumFrom_append, List.enumFrom_cons]
        simp
      have h1e : ∀ x ∈ List.enumFrom 0 g₁,
          x.2.auto_rollback.getD true = true → x.2.revokeOk = true :=
        fun x hx => h1 x.2 (snd_mem_of_mem_enumFrom g₁ 0 x hx)
      have hstop := revokeWalk_stop (List.enumFrom 0 g₁) g₁.length q
        (List.enumFrom (g₁.length + 1) g₂) h1e hq1 hq2
      rw [run_deploy_units, hreach, if_pos (by simp [hc])]
      simp [henum, hstop, eligibleIdx]
  · intro hc
    rw [run_deploy_units, hreach, if_neg (by simp [hc])]
  · rw [run_deploy_units, hreach0, if_neg (by simp)]

/-- Witness for claim C3's theorem: one succeeded unit, then a failing
unit; the succeeded unit is revoked and the run returns `Ok`. -/
theorem revocation_walk_characterisation_witness :
    (run_deploy_units [(⟨some true, true, true⟩ : PartSpec), ⟨some true, false, true⟩]
        false true none).revoked = eligibleIdx [⟨some true, true, true⟩] ∧
    (run_deploy_units [(⟨some true, true, true⟩ : PartSpec), ⟨some true, false, true⟩]
        false true none).result = Except.ok () :=
  ((revocation_walk_characterisation false none [⟨some true, true, true⟩]
      ⟨some true, false, true⟩ [] (by decide) (by decide)).1 (by decide)).1 (by decide)

/-- Claim C3, counterexample: units 0 and 1 succeed (both with
auto-rollback set), unit 2 fails; unit 0's revocation fails, and contrary
to the claim the revocation of unit 1 is never invoked — the walk stops at
the failed revocation and returns its error. -/
theorem revocation_stops_at_failed_revoke :
    (run_deploy_units
        [(⟨some true, true, false⟩ : PartSpec), ⟨some true, true, true⟩, ⟨some true, false, true⟩]
        false true none).revoked = [0] ∧
    (run_deploy_units
        [(⟨some true, true, false⟩ : PartSpec), ⟨some true, true, true⟩, ⟨some true, false, true⟩]
        false true none).result = Except.error RunDeployError.RevokeProfile ∧
    (run_deploy_units
        [(⟨some true, true, false⟩ : PartSpec), ⟨some true, true, true⟩, ⟨some true, false, true⟩]
        false true none).revoked ≠ [0, 1] :=
  ⟨rfl, rfl, by decide⟩

/-- Claim C4, code bug: with dry-activate set and a unit failing after a
succeeded one, the coordinator logs the "dry run, not rolling back" line
and nevertheless invokes revoke on the previously succeeded unit 0,
contradicting both the claim and the log line the code just emitted. -/
theorem dry_activate_still_revokes :
    (run_deploy_units [(⟨none, true, true⟩ : PartSpec), ⟨none, false, true⟩]
        true true none).dryRunLogged = true ∧
    (run_deploy_units [(⟨none, true, true⟩ : PartSpec), ⟨none, false, true⟩]
        true true none).revoked = [0] ∧
    (run_deploy_units [(⟨none, true, true⟩ : PartSpec), ⟨none, false, true⟩]
        true true none).revoked ≠ [] :=
  ⟨rfl, rfl, by decide⟩

end DeployRs

namespace DeployRs

/-- Claim C5: in the agent's activate subcommand (not dry-activate), a non-zero
exit of the profile-set command or of the activation script triggers the
rollback sequence exactly when auto-rollback is set, and the error
`SetProfileExit` / `RunActivateExit` is still returned. -/
theorem activate_auto_rollback_on_failure (ar boot magic : Bool) (ct : Nat) (env : AgentEnv)
    (hde : env.deactivate_ok = true) :
    (env.set_profile_code ≠ some 0 →
      (activate ar false boot magic ct env).2
          = Except.error (ActivateError.SetProfileExit env.set_profile_code) ∧
      (AgentEv.deactivate ∈ (activate ar false boot magic ct env).1 ↔ ar = true)) ∧
    (env.set_profile_code = some 0 → env.run_activate_code ≠ some 0 →
      (activate ar false boot magic ct env).2
          = Except.error (ActivateError.RunActivateExit env.run_activate_code) ∧
      (AgentEv.deactivate ∈ (activate ar false boot magic ct env).1 ↔ ar = true)) := by
  constructor
  · intro h
    cases ar <;> simp [activate, h, hde]
  · intro h1 h2
    cases ar <;> simp [activate, h1, h2, hde]

theorem activate_auto_rollback_on_failure_witness :
    (activate true false false true 30
        ⟨some 1, some 0, true, true, true, DangerOutcome.received, true⟩).2
        = Except.error (ActivateError.SetProfileExit (some 1)) ∧
    (AgentEv.deactivate ∈ (activate true false false true 30
        ⟨some 1, some 0, true, true, true, DangerOutcome.received, true⟩).1 ↔ true = true) :=
  (activate_auto_rollback_on_failure true false true 30
    ⟨some 1, some 0, true, true, true, DangerOutcome.received, true⟩ rfl).1 (by decide)

end DeployRs

namespace DeployRs

/-- Claim C2: in the agent's activate subcommand (profile set and script
succeeding), if dry-activate or boot is set it returns success without
arming the watchdog; otherwise, when magic-rollback is set, it creates the
sentinel file, watches it and blocks awaiting its removal: a Remove(File)
event within the confirm timeout gives success, while timeout, watcher
error and watcher stream end trigger the rollback sequence and return
TimesUp, Watch and NoConfirmation respectively; the watcher callback
reacts to Remove(File) events only. -/
theorem activate_watchdog_protocol (ar dry boot magic : Bool) (ct : Nat) (env : AgentEnv)
    (hset : env.set_profile_code = some 0) (hrun : env.run_activate_code = some 0)
    (hd : env.create_dir_ok = true) (hf : env.create_file_ok = true)
    (hw : env.watcher_ok = true) (hde : env.deactivate_ok = true) :
    ((dry = true ∨ boot = true) →
      (activate ar dry boot magic ct env).2 = Except.ok () ∧
      AgentEv.armSentinelWatcher ∉ (activate ar dry boot magic ct env).1) ∧
    (dry = false → boot = false → magic = true →
      ((env.danger = DangerOutcome.received →
        activate ar dry boot magic ct env
          = ([AgentEv.setProfile, AgentEv.runActivate, AgentEv.createConfirmDir,
              AgentEv.createSentinel, AgentEv.armSentinelWatcher, AgentEv.awaitConfirm ct],
             Except.ok ())) ∧
       (env.danger = DangerOutcome.elapsed →
        activate ar dry boot magic ct env
          = ([AgentEv.setProfile, AgentEv.runActivate, AgentEv.createConfirmDir,
              AgentEv.createSentinel, AgentEv.armSentinelWatcher, AgentEv.awaitConfirm ct,
              AgentEv.deactivate],
             Except.error (ActivateError.ActivationConfirmation
               (ActivationConfirmationError.WaitingError DangerZoneError.TimesUp)))) ∧
       (env.danger = DangerOutcome.recvError →
        activate ar dry boot magic ct env
          = ([AgentEv.setProfile, AgentEv.runActivate, AgentEv.createConfirmDir,
              AgentEv.createSentinel, AgentEv.armSentinelWatcher, AgentEv.awaitConfirm ct,
              AgentEv.deactivate],
             Except.error (ActivateError.ActivationConfirmation
               (ActivationConfirmationError.WaitingError DangerZoneError.Watch)))) ∧
       (env.danger = DangerOutcome.streamEnd →
        activate ar dry boot magic ct env
          = ([AgentEv.setProfile, AgentEv.runActivate, AgentEv.createConfirmDir,
              AgentEv.createSentinel, AgentEv.armSentinelWatcher, AgentEv.awaitConfirm ct,
              AgentEv.deactivate],
             Except.error (ActivateError.ActivationConfirmation
               (ActivationConfirmationError.WaitingError DangerZoneError.NoConfirmation)))))) ∧
    (∀ ps, activation_watcher_send (FsEvent.ok FsEventKind.removeFile ps)
        = some (Except.ok ())) ∧
    (∀ k ps, k ≠ FsEventKind.removeFile → activation_watcher_send (FsEvent.ok k ps) = none) := by
  refine ⟨?_, ?_, fun ps => rfl, ?_⟩
  · rintro (h | h)
    · subst h; simp [activate]
    · subst h; cases dry <;> simp [activate, hset, hrun]
  · intro h1 h2 h3
    subst h1; subst h2; subst h3
    refine ⟨?_, ?_, ?_, ?_⟩ <;> intro hdz <;>
      simp [activate, activation_confirmation, danger_zone, Except.mapError, hset, hrun, hd, hf, hw, hde, hdz]
  · intro k ps hk
    cases k
    · rfl
    · exact absurd rfl hk
    · rfl

/-- Witness for claim C2's theorem: the happy path returns success, and
in dry-activate mode the watcher is never armed. -/
theorem activate_watchdog_protocol_witness :
    (activate true false false true 30
        ⟨some 0, some 0, true, true, true, DangerOutcome.received, true⟩).2 = Except.ok () ∧
    AgentEv.armSentinelWatcher ∉ (activate true true false true 30
        ⟨some 0, some 0, true, true, true, DangerOutcome.received, true⟩).1 := by
  constructor
  · exact (((activate_watchdog_protocol true false false true 30
      ⟨some 0, some 0, true, true, true, DangerOutcome.received, true⟩
      rfl rfl rfl rfl rfl rfl).2.1 rfl rfl rfl).1 rfl) ▸ rfl
  · exact ((activate_watchdog_protocol true true false true 30
      ⟨some 0, some 0, true, true, true, DangerOutcome.received, true⟩
      rfl rfl rfl rfl rfl rfl).1 (Or.inl rfl)).2

end DeployRs

namespace DeployRs

/-- Claim C8: the agent's wait subcommand arms a non-recursive watcher on
the temp path and only afterwards checks whether the sentinel already
exists; if it exists it returns success immediately, otherwise it awaits a
Create(File) event whose canonical path equals the sentinel path, failing
with TimesUp on timeout, with the activation timeout defaulting to 240
seconds when not supplied. -/
theorem wait_protocol (env : WaitEnv) (ato : Option Nat)
    (hw : env.watcher_ok = true) (hu : env.unwatch_ok = true) :
    ((wait_run env ato).1.take 2 = [WaitEv.armTempWatcher true, WaitEv.checkSentinel]) ∧
    (env.sentinel_exists = true → (wait_run env ato).2 = Except.ok ()) ∧
    (env.sentinel_exists = false →
      (wait_run env ato).1
          = [WaitEv.armTempWatcher true, WaitEv.checkSentinel,
             WaitEv.awaitCreation (ato.getD 240)] ∧
      (env.danger = DangerOutcome.received → (wait_run env ato).2 = Except.ok ()) ∧
      (env.danger = DangerOutcome.elapsed →
        (wait_run env ato).2 = Except.error (WaitError.Waiting DangerZoneError.TimesUp)) ∧
      (env.danger = DangerOutcome.recvError →
        (wait_run env ato).2 = Except.error (WaitError.Waiting DangerZoneError.Watch)) ∧
      (env.danger = DangerOutcome.streamEnd →
        (wait_run env ato).2 = Except.error (WaitError.Waiting DangerZoneError.NoConfirmation))) ∧
    (env.sentinel_exists = false → ato = none →
      (wait_run env ato).1
          = [WaitEv.armTempWatcher true, WaitEv.checkSentinel, WaitEv.awaitCreation 240]) ∧
    (∀ lp : String, ∀ canon : String → Option String, ∀ k ps,
      wait_watcher_send lp canon (FsEvent.ok k ps) = some (Except.ok ())
        ↔ (k = FsEventKind.createFile ∧ ∃ x, canon lp = some x ∧ ps = [x])) := by
  refine ⟨?_, ?_, ?_, ?_, ?_⟩
  · cases hs : env.sentinel_exists <;> simp [wait_run, hw, hu, hs]
  · intro hs; simp [wait_run, hw, hu, hs]
  · intro hs
    refine ⟨by simp [wait_run, hw, hs], ?_, ?_, ?_, ?_⟩ <;> intro hdz <;>
      simp [wait_run, danger_zone, Except.mapError, hw, hs, hdz]
  · intro hs hato
    subst hato
    simp [wait_run, hw, hs]
  · intro lp canon k ps
    cases k
    · cases hps : ps with
      | nil => simp [wait_watcher_send]
      | cons x t =>
        cases t with
        | nil =>
          cases hc : canon lp with
          | none => simp [wait_watcher_send, hc]
          | some lpc =>
            by_cases hx : x = lpc
            · subst hx; simp [wait_watcher_send, hc]
            · simp [wait_watcher_send, hc, hx]
        | cons y t2 => simp [wait_watcher_send]
    · simp [wait_watcher_send]
    · simp [wait_watcher_send]

/-- Witness for claim C8's theorem: with no sentinel and an elapsing
timeout, wait arms the watcher, checks existence, and fails with
TimesUp. -/
theorem wait_protocol_witness :
    ((wait_run ⟨true, false, true, DangerOutcome.elapsed⟩ none).1.take 2
        = [WaitEv.armTempWatcher true, WaitEv.checkSentinel]) ∧
    (wait_run ⟨true, false, true, DangerOutcome.elapsed⟩ none).2
        = Except.error (WaitError.Waiting DangerZoneError.TimesUp) := by
  have h := wait_protocol ⟨true, false, true, DangerOutcome.elapsed⟩ none rfl rfl
  exact ⟨h.1, (h.2.2.1 rfl).2.2.1 rfl⟩

end DeployRs

namespace DeployRs

theorem perm_two {α : Type} (u v : α) (l : List α) (h : l.Perm [u, v]) :
    l = [u, v] ∨ l = [v, u] := by
  obtain ⟨x, y, rfl⟩ : ∃ x y, l = [x, y] := by
    have hlen : l.length = 2 := by simpa using h.length_eq
    match l, hlen with
    | [x, y], _ => exact ⟨x, y, rfl⟩
  have hx : x ∈ [u, v] := h.subset (List.mem_cons_self x [y])
  rcases List.mem_pair.1 hx with rfl | rfl
  · have h2 : [y].Perm [v] := (List.perm_cons x).1 h
    left
    rw [List.perm_singleton.1 h2]
  · have hsw : List.Perm [u, x] [x, u] := List.Perm.swap x u []
    have h2 : [y].Perm [u] := (List.perm_cons x).1 (h.trans hsw)
    right
    rw [List.perm_singleton.1 h2]

theorem perm_three {α : Type} (u v w : α) (l : List α) (h : l.Perm [u, v, w]) :
    l = [u, v, w] ∨ l = [u, w, v] ∨ l = [v, u, w] ∨
    l = [v, w, u] ∨ l = [w, u, v] ∨ l = [w, v, u] := by
  obtain ⟨x, y, z, rfl⟩ : ∃ x y z, l = [x, y, z] := by
    have hlen : l.length = 3 := by simpa using h.length_eq
    match l, hlen with
    | [x, y, z], _ => exact ⟨x, y, z, rfl⟩
  have hx : x ∈ [u, v, w] := h.subset (List.mem_cons_self x [y, z])
  rcases List.mem_cons.1 hx with rfl | hx2
  · have h2 : [y, z].Perm [v, w] := (List.perm_cons x).1 h
    rcases perm_two v w [y, z] h2 with h3 | h3 <;> injection h3 with e1 e2 <;>
      subst e1 <;> injection e2 with e3 e4 <;> subst e3 <;> simp
  · rcases List.mem_cons.1 hx2 with rfl | hx3
    · have hsw : List.Perm [u, x, w] (x :: u :: [w]) := List.Perm.swap x u [w]
      have h2 : [y, z].Perm [u, w] := (List.perm_cons x).1 (h.trans hsw)
      rcases perm_two u w [y, z] h2 with h3 | h3 <;> injection h3 with e1 e2 <;>
        subst e1 <;> injection e2 with e3 e4 <;> subst e3 <;> simp
    · rcases List.mem_cons.1 hx3 with rfl | hx4
      · have hsw1 : List.Perm [v, x] [x, v] := List.Perm.swap x v []
        have hsw2 : List.Perm [u, v, x] (u :: x :: [v]) := List.Perm.cons u hsw1
        have hsw3 : List.Perm (u :: x :: [v]) (x :: u :: [v]) := List.Perm.swap x u [v]
        have h2 : [y, z].Perm [u, v] := (List.perm_cons x).1 ((h.trans hsw2).trans hsw3)
        rcases perm_two u v [y, z] h2 with h3 | h3 <;> injection h3 with e1 e2 <;>
          subst e1 <;> injection e2 with e3 e4 <;> subst e3 <;> simp
      · cases hx4

end DeployRs

namespace DeployRs

/-- Claim C7: for a node declaring profiles-order [a, c] and profiles
containing exactly a, b and c (in any map iteration order), resolving the
node-only target yields deploy units for exactly the profiles [a, c, b] in
that order: the profiles-order entries first, then the remaining declared
profiles, with no duplicates. -/
theorem resolver_profile_ordering (a b c : String) (pa pb pc : Profile)
    (hab : a ≠ b) (hac : a ≠ c) (hbc : b ≠ c)
    (keys : List (String × Profile)) (hperm : keys.Perm [(a, pa), (b, pb), (c, pc)]) :
    node_profiles_list keys [a, c] = Except.ok [(a, pa), (c, pc), (b, pb)] := by
  have eab : (a == b) = false := beq_eq_false_iff_ne.2 hab
  have eac : (a == c) = false := beq_eq_false_iff_ne.2 hac
  have ebc : (b == c) = false := beq_eq_false_iff_ne.2 hbc
  have eba : (b == a) = false := beq_eq_false_iff_ne.2 hab.symm
  have eca : (c == a) = false := beq_eq_false_iff_ne.2 hac.symm
  have ecb : (c == b) = false := beq_eq_false_iff_ne.2 hbc.symm
  rcases perm_three (a, pa) (b, pb) (c, pc) keys hperm with h | h | h | h | h | h <;> subst h <;>
    simp [node_profiles_list, buildProfilesList, lookupProfile, List.find?, List.any,
      eab, eac, ebc, eba, eca, ecb]

end DeployRs

namespace DeployRs

/-- Witness for claim C7's theorem at concrete profile names with a map
iteration order differing from profiles-order. -/
theorem resolver_profile_ordering_witness :
    node_profiles_list
        [("b", (⟨"/nix/store/pb"⟩ : Profile)), ("a", ⟨"/nix/store/pa"⟩), ("c", ⟨"/nix/store/pc"⟩)]
        ["a", "c"]
      = Except.ok
          [("a", (⟨"/nix/store/pa"⟩ : Profile)), ("c", ⟨"/nix/store/pc"⟩),
           ("b", ⟨"/nix/store/pb"⟩)] :=
  resolver_profile_ordering "a" "b" "c" ⟨"/nix/store/pa"⟩ ⟨"/nix/store/pb"⟩ ⟨"/nix/store/pc"⟩
    (by decide) (by decide) (by decide) _ (by decide)

end DeployRs

namespace DeployRs

theorem mk_toList (s : String) : String.mk s.toList = s := rfl

theorem string_ext_toList (s r : String) (h : s.toList = r.toList) : s = r := by
  cases s; cases r; simp only [String.toList] at h; rw [h]

theorem toList_append (a b : String) : (a ++ b).toList = a.toList ++ b.toList := by
  simp [String.toList, String.data_append]

theorem strFind_eq_none (c : Char) (l : List Char) (h : ∀ a ∈ l, a ≠ c) :
    strFind l c = none := by
  induction l with
  | nil => rfl
  | cons a rest ih =>
    have ha : a ≠ c := h a (List.mem_cons_self _ _)
    simp [strFind, ha, ih (fun x hx => h x (List.mem_cons_of_mem _ hx))]

theorem takeWhile_append_all (p : Char → Bool) (l₁ l₂ : List Char)
    (h : ∀ a ∈ l₁, p a = true) :
    (l₁ ++ l₂).takeWhile p = l₁ ++ l₂.takeWhile p ∧
    (l₁ ++ l₂).dropWhile p = l₂.dropWhile p := by
  induction l₁ with
  | nil => simp
  | cons a rest ih =>
    have ha := h a (List.mem_cons_self _ _)
    have ih2 := ih (fun x hx => h x (List.mem_cons_of_mem _ hx))
    simp [List.takeWhile_cons, List.dropWhile_cons, ha, ih2.1, ih2.2]

theorem identStart_ne (c : Char) (h : isIdentStart c = true) :
    c ≠ '.' ∧ c ≠ '"' ∧ c ≠ '@' ∧ c ≠ '#' := by
  refine ⟨?_, ?_, ?_, ?_⟩ <;> intro hc <;> subst hc <;> exact absurd h (by decide)

theorem identChar_ne (c : Char) (h : isIdentChar c = true) :
    c ≠ '.' ∧ c ≠ '"' ∧ c ≠ '@' ∧ c ≠ '#' := by
  refine ⟨?_, ?_, ?_, ?_⟩ <;> intro hc <;> subst hc <;> exact absurd h (by decide)

theorem bareIdent_no_special (n : String) (hn : isBareIdent n = true) :
    ∀ a ∈ n.toList, a ≠ '.' ∧ a ≠ '"' ∧ a ≠ '@' ∧ a ≠ '#' := by
  intro a ha
  unfold isBareIdent at hn
  cases hl : n.toList with
  | nil => rw [hl] at ha; cases ha
  | cons c rest =>
    rw [hl] at hn ha
    simp only [Bool.and_eq_true] at hn
    rcases List.mem_cons.1 ha with rfl | ha2
    · exact identStart_ne a hn.1
    · exact identChar_ne a (List.all_eq_true.1 hn.2 a ha2)

theorem split_first (c : Char) (l₁ l₂ : List Char) (h : ∀ a ∈ l₁, a ≠ c) :
    strFind (l₁ ++ c :: l₂) c = some l₁.length ∧
    (l₁ ++ c :: l₂).take l₁.length = l₁ ∧
    (l₁ ++ c :: l₂).drop (l₁.length + 1) = l₂ := by
  refine ⟨?_, List.take_left l₁ (c :: l₂), ?_⟩
  · rw [strFind_append_not_mem c _ _ h]; simp [strFind]
  · rw [show l₁ ++ c :: l₂ = (l₁ ++ [c]) ++ l₂ by simp]
    have h1 : (l₁ ++ [c]).length = l₁.length + 1 := by simp
    rw [← h1, List.drop_left]

theorem tokenize_ident_append (n : String) (hn : isBareIdent n = true) (rest : List Char)
    (hrest : rest.takeWhile isIdentChar = []) :
    tokenize (n.toList ++ rest) = (tokenize rest).map (fun ts => FragTok.ident n :: ts) := by
  obtain ⟨c, tail, hl⟩ : ∃ c tail, n.toList = c :: tail := by
    cases hl : n.toList with
    | nil => unfold isBareIdent at hn; rw [hl] at hn; cases hn
    | cons c t => exact ⟨c, t, rfl⟩
  have hn2 : isIdentStart c = true ∧ tail.all isIdentChar = true := by
    unfold isBareIdent at hn; rw [hl] at hn; simpa [Bool.and_eq_true] using hn
  have hne := identStart_ne c hn2.1
  have htail : ∀ a ∈ tail, isIdentChar a = true := fun a ha => List.all_eq_true.1 hn2.2 a ha
  have happ := takeWhile_append_all isIdentChar tail rest htail
  have hdropr : rest.dropWhile isIdentChar = rest := by
    have h2 := List.takeWhile_append_dropWhile (p := isIdentChar) (l := rest)
    rw [hrest] at h2
    simpa using h2
  rw [hl, List.cons_append]
  rw [tokenize]
  rw [if_neg hne.1, if_neg hne.2.1, if_pos hn2.1]
  rw [happ.1, happ.2, hrest, hdropr, List.append_nil]
  rw [show c :: tail = n.toList from hl.symm, mk_toList]

theorem tokenize_bare (n : String) (hn : isBareIdent n = true) :
    tokenize n.toList = some [FragTok.ident n] := by
  have h := tokenize_ident_append n hn [] rfl
  rw [List.append_nil] at h
  rw [h]
  simp [tokenize]

theorem tokenize_node_profile (n p : String) (hn : isBareIdent n = true)
    (hp : isBareIdent p = true) :
    tokenize (n.toList ++ '.' :: p.toList)
      = some [FragTok.ident n, FragTok.dot, FragTok.ident p] := by
  have hdot : List.takeWhile isIdentChar ('.' :: p.toList) = [] := by
    simp [List.takeWhile_cons, show isIdentChar '.' = false from by decide]
  rw [tokenize_ident_append n hn ('.' :: p.toList) hdot]
  rw [tokenize]
  rw [if_pos rfl]
  rw [tokenize_bare p hp]
  rfl

end DeployRs

namespace DeployRs

theorem from_str_hash (s repo : String) (frag : List Char)
    (hs : s.toList = repo.toList ++ '#' :: frag)
    (hrepo : ∀ a ∈ repo.toList, a ≠ '#') :
    Target.from_str s =
      (match tokenize (match strFind frag '@' with
                       | some j => frag.take j
                       | none => frag) with
       | none => Except.error ParseTargetError.Unrecognized
       | some [] => Except.ok ⟨repo, none, none,
           (match strFind frag '@' with
            | some j => some (String.mk (frag.drop (j + 1)))
            | none => none)⟩
       | some (t :: ts) =>
         match fragLoop (t :: ts) false none none with
         | Except.error e => Except.error e
         | Except.ok (n, p) => Except.ok ⟨repo, n, p,
             (match strFind frag '@' with
              | some j => some (String.mk (frag.drop (j + 1)))
              | none => none)⟩) := by
  obtain ⟨hf1, hf2, hf3⟩ := split_first '#' repo.toList frag hrepo
  rw [← hs] at hf1 hf2 hf3
  simp only [Target.from_str, hf1, hf2, hf3, mk_toList]

end DeployRs

namespace DeployRs

/-- Claim C9: for every canonical target tuple (repo, node?, profile?,
host?), rendering it to the descriptor form repo[#node[.profile][@host]]
and re-parsing it with `Target::from_str` yields the same tuple. -/
theorem target_render_roundtrip (t : Target) (hc : t.canonical) :
    Target.from_str t.render = Except.ok t := by
  obtain ⟨repo, node, profile, ip⟩ := t
  obtain ⟨hrepo, hnone, hnode, hprof⟩ := hc
  have hrepo2 : ∀ a ∈ repo.toList, a ≠ '#' := by
    intro a ha hac; subst hac; exact hrepo ha
  have hh : ("#" : String).toList = ['#'] := rfl
  have hdt : ("." : String).toList = ['.'] := rfl
  have hat : ("@" : String).toList = ['@'] := rfl
  cases node with
  | none =>
    obtain ⟨hp, hi⟩ := hnone rfl
    subst hp
    subst hi
    have hr : Target.render ⟨repo, none, none, none⟩ = repo := by
      apply string_ext_toList
      simp [Target.render, toList_append]
    rw [hr]
    have hf : strFind repo.data '#' = none := strFind_eq_none '#' repo.toList hrepo2
    simp [Target.from_str, hf]
  | some n =>
    have hn : isBareIdent n = true := hnode n rfl
    have hnos := bareIdent_no_special n hn
    have hnat : ∀ a ∈ n.toList, a ≠ '@' := fun a ha => (hnos a ha).2.2.1
    cases profile with
    | none =>
      cases ip with
      | none =>
        have hs : (Target.render ⟨repo, some n, none, none⟩).toList
            = repo.toList ++ '#' :: n.toList := by
          simp [Target.render, toList_append, hh]
        rw [from_str_hash _ repo n.toList hs hrepo2]
        rw [strFind_eq_none '@' n.toList hnat]
        rw [tokenize_bare n hn]
        rfl
      | some h =>
        have hs : (Target.render ⟨repo, some n, none, some h⟩).toList
            = repo.toList ++ '#' :: (n.toList ++ '@' :: h.toList) := by
          simp [Target.render, toList_append, hh, hat]
        rw [from_str_hash _ repo _ hs hrepo2]
        obtain ⟨ha1, ha2, ha3⟩ := split_first '@' n.toList h.toList hnat
        rw [ha1]
        simp only [ha2, ha3, mk_toList]
        rw [tokenize_bare n hn]
        rfl
    | some p =>
      have hp : isBareIdent p = true := hprof p rfl
      have hpos := bareIdent_no_special p hp
      have hinner : ∀ a ∈ n.toList ++ '.' :: p.toList, a ≠ '@' := by
        intro a ha
        rcases List.mem_append.1 ha with ha1 | ha2
        · exact hnat a ha1
        · rcases List.mem_cons.1 ha2 with rfl | ha3
          · decide
          · exact (hpos a ha3).2.2.1
      cases ip with
      | none =>
        have hs : (Target.render ⟨repo, some n, some p, none⟩).toList
            = repo.toList ++ '#' :: (n.toList ++ '.' :: p.toList) := by
          simp [Target.render, toList_append, hh, hdt]
        rw [from_str_hash _ repo _ hs hrepo2]
        rw [strFind_eq_none '@' _ hinner]
        rw [tokenize_node_profile n p hn hp]
        rfl
      | some h =>
        have hs : (Target.render ⟨repo, some n, some p, some h⟩).toList
            = repo.toList ++ '#' :: ((n.toList ++ '.' :: p.toList) ++ '@' :: h.toList) := by
          simp [Target.render, toList_append, hh, hdt, hat]
        rw [from_str_hash _ repo _ hs hrepo2]
        obtain ⟨ha1, ha2, ha3⟩ := split_first '@' (n.toList ++ '.' :: p.toList) h.toList hinner
        rw [ha1]
        simp only [ha2, ha3, mk_toList]
        rw [tokenize_node_profile n p hn hp]
        rfl

end DeployRs

namespace DeployRs

/-- Witness for claim C9's theorem at a concrete canonical tuple with all
four components present. -/
theorem target_render_roundtrip_witness :
    Target.from_str
        (Target.render
          ⟨"github:serokell/deploy-rs", some "node-a", some "system1",
           some "host.example.com:22"⟩)
      = Except.ok
          ⟨"github:serokell/deploy-rs", some "node-a", some "system1",
           some "host.example.com:22"⟩ :=
  target_render_roundtrip
    ⟨"github:serokell/deploy-rs", some "node-a", some "system1", some "host.example.com:22"⟩
    (by decide)

end DeployRs
